import Mathlib

set_option maxRecDepth 100000

/-!
Verification of the image-analysis tool (`src/app.py`).

The development shallowly embeds the decision logic of `app.py`:
the sequence-diagram classifier (`detect_sequence_diagram`), the
prompt-keyword override, the remote-model candidate loop of
`analyze_image`, and the generic fallback metadata report.  Python
strings are Lean `String`s, Python's true division of the integer
width and height is modelled by exact rational division (`Rat`), and
machine-level floating point rounding is abstracted away: it is
irrelevant to every threshold at realistic image sizes and to every
property proved below.
-/

namespace ImageAnalysis

/-! ### String helpers: Python `str.lower` and the `in` substring test -/

/-- ASCII lowering of one character, as Python's `str.lower` acts on the
ASCII range (all keywords used by the program are ASCII). -/
def lowerChar (c : Char) : Char := c.toLower

/-- `s.lower()` on a Lean string: lower every character. -/
def strLower (s : String) : String := String.mk (s.data.map lowerChar)

/-- `pat` is an initial segment of `l`. -/
def leadsWith : List Char → List Char → Bool
  | [], _ => true
  | _ :: _, [] => false
  | a :: as, b :: bs => a == b && leadsWith as bs

/-- `pat` occurs contiguously somewhere inside `l` (Python's `pat in s`). -/
def hasSub (pat : List Char) : List Char → Bool
  | [] => pat.isEmpty
  | b :: bs => leadsWith pat (b :: bs) || hasSub pat bs

/-- Python's `pat in s` substring test on strings. -/
def strHasSub (s pat : String) : Bool := hasSub pat.data s.data

/-- `any(keyword in s for keyword in keywords)`. -/
def anyKeywordIn (keywords : List String) (s : String) : Bool :=
  keywords.any (fun k => strHasSub s k)

/-- `x.lower() if x else ""`: Python truthiness sends both `None` and
`""` to `""`, and `"".lower() = ""`, so lowering the present case is an
exact model. -/
def optLower : Option String → String
  | some s => strLower s
  | none => ""

/-! ### The sequence-diagram classifier (`detect_sequence_diagram`, app.py 23-52) -/

/-- The filename keyword list of app.py line 30. -/
def seq_keywords : List String :=
  ["sequence", "seq", "interaction", "collaboration", "message flow",
   "uml", "system flow", "process flow"]

/-- `aspect_ratio = width / height if height > 0 else 1` (app.py 41 and 248),
with Python's float division modelled by exact rational division. -/
def aspect_ratio (width height : Nat) : Rat :=
  if height > 0 then (width : Rat) / (height : Rat) else 1

/-- `detect_sequence_diagram` (app.py 23-52).  The optional `file_name`
mirrors the Python parameter; `file_name.lower() if file_name else ""`
collapses both `None` and `""` to `""` (and `"".lower() = ""`), so a plain
match suffices.  The returned reason is `none` on the final
`return False, None`. -/
def detect_sequence_diagram (file_name : Option String) (width height : Nat) :
    Bool × Option String :=
  let file_name_lower := optLower file_name
  if anyKeywordIn seq_keywords file_name_lower then
    (true, some "Filename suggests sequence diagram")
  else
    let ar := aspect_ratio width height
    if ar > 3 / 2 ∧ height > 200 then
      (true, some "Wide format typical of sequence diagrams")
    else if ar > 6 / 5 ∧ height > 150 then
      (true, some "Format suggests technical diagram")
    else
      (false, none)

/-! ### The prompt-keyword override (app.py 128-136) -/

/-- The prompt keyword list of app.py line 130. -/
def seq_prompt_keywords : List String :=
  ["sequence", "lifeline", "message", "participant", "actor",
   "interaction", "uml", "diagram"]

/-- `prompt_suggests_seq` (app.py 129-131): lower the prompt (empty when
absent, matching Python truthiness) and look for any keyword. -/
def prompt_suggests_seq (prompt : Option String) : Bool :=
  anyKeywordIn seq_prompt_keywords (optLower prompt)

/-- The override of app.py 134-136 applied to a classification pair:
`if prompt_suggests_seq and not is_sequence_diagram` replace the pair by
the override verdict, otherwise keep it unchanged. -/
def apply_prompt_override (prompt : Option String)
    (cls : Bool × Option String) : Bool × Option String :=
  if prompt_suggests_seq prompt && !cls.1 then
    (true, some "User prompt suggests sequence diagram")
  else
    cls

/-! ### The generic fallback report (`analyze_image`, app.py 246-348)

The "enhanced basic analysis" branch of `analyze_image` reads only the
image's width, height, color mode, format, bit depth and the uploaded
file name; we package those as an `ImageDescriptor` (the spec's name for
this record) and rebuild the report text with the same conditionals. -/

structure ImageDescriptor where
  width : Nat
  height : Nat
  mode : String
  format : Option String
  file_name : Option String
  bits : Option Nat
deriving DecidableEq, Repr

/-- Orientation (app.py 252-257). -/
def orientation (width height : Nat) : String :=
  if width > height then "Landscape"
  else if height > width then "Portrait"
  else "Square"

/-- `mode_descriptions.get(image.mode, f'Unknown mode: {image.mode}')`
(app.py 260-269). -/
def color_info (mode : String) : String :=
  if mode = "RGB" then "Color image (Red, Green, Blue)"
  else if mode = "RGBA" then "Color image with transparency"
  else if mode = "L" then "Grayscale (Black and White)"
  else if mode = "P" then "Palette-based color"
  else if mode = "CMYK" then "CMYK color (for printing)"
  else if mode = "HSV" then "HSV color space"
  else "Unknown mode: " ++ mode

/-- Size category by pixel count (app.py 272-279); the thresholds are
written as the products the source writes. -/
def size_category (pixels : Nat) : String :=
  if pixels < 640 * 480 then "Small"
  else if pixels < 1920 * 1080 then "Medium"
  else if pixels < 4 * 1024 * 1024 then "Large"
  else "Very Large"

/-- `likely_type` (app.py 282-292).  The source lowers the whole file
name (`file_name.lower() if file_name and file_name else ""`) and tests
it for membership in lists of bare extension strings. -/
def likely_type (file_name : Option String) : String :=
  let file_ext_lower := optLower file_name
  if file_ext_lower ∈ [".jpg", ".jpeg", ".png", ".gif", ".bmp"] then
    "Photograph or Digital Image"
  else if file_ext_lower ∈ [".svg", ".ico"] then
    "Vector Graphic or Icon"
  else if file_ext_lower ∈ [".psd"] then
    "Photoshop Document"
  else if file_ext_lower ∈ [".tiff", ".tif"] then
    "Professional/High-Quality Image"
  else
    "Image File"

/-- All extension strings the `likely_type` chain compares against. -/
def all_ext_strings : List String :=
  [".jpg", ".jpeg", ".png", ".gif", ".bmp", ".svg", ".ico", ".psd", ".tiff", ".tif"]

/-- The recommendation list (app.py 295-308): one optional color-mode
entry followed by one optional shape entry, in source order. -/
def recommendation_list (mode : String) (ar : Rat) : List String :=
  (if mode = "RGBA" then ["Has transparent background"]
   else if mode = "L" then ["Black and white image"]
   else if mode = "CMYK" then ["Optimized for printing"]
   else []) ++
  (if ar > 3 / 2 then ["Wide panoramic format"]
   else if ar < 7 / 10 then ["Tall vertical format"]
   else if 9 / 10 ≤ ar ∧ ar ≤ 11 / 10 then ["Square format"]
   else [])

/-- `{image.format or 'Unknown'}` (app.py 317): Python `or` replaces a
falsy value (`None` or `""`) by `'Unknown'`. -/
def format_or_unknown : Option String → String
  | some f => if f = "" then "Unknown" else f
  | none => "Unknown"

/-- `f"...{image.format}"` (app.py 322): Python renders `None` as the
text `None`. -/
def format_str : Option String → String
  | some f => f
  | none => "None"

/-- `'Lossless' if image.format in ['PNG', 'BMP', 'TIFF'] else 'Lossy'`
(app.py 322); `None in [...]` is false. -/
def compression_kind : Option String → String
  | some f => if f ∈ ["PNG", "BMP", "TIFF"] then "Lossless" else "Lossy"
  | none => "Lossy"

/-- `{image.bits if hasattr(image, 'bits') and image.bits else 'Unknown'}`
(app.py 323): absent or zero bit depth renders as `Unknown`. -/
def bit_depth_str : Option Nat → String
  | some b => if b = 0 then "Unknown" else Nat.repr b
  | none => "Unknown"

/-- Usage line (app.py 336): nested conditional expression on the format. -/
def usage_suggestion (format : Option String) : String :=
  if format = some "PNG" then "Web display and digital use"
  else if format = some "JPEG" then "Photographs and images"
  else if format = some "TIFF" ∨ format = some "BMP" then "High-quality prints"
  else "General use"

/-- Aspect-ratio line (app.py 338). -/
def aspect_suggestion (ar : Rat) : String :=
  if ar > 3 / 2 then "Great for wallpapers/wide displays"
  else if ar < 7 / 10 then "Great for portraits/mobile"
  else "Versatile square format"

/-- Insert thousands separators into a reversed digit list. -/
def groupRev : List Char → List Char
  | a :: b :: c :: d :: rest => a :: b :: c :: ',' :: groupRev (d :: rest)
  | l => l

/-- Python's `{pixels:,}` format: decimal digits grouped in threes. -/
def commaFmt (n : Nat) : String :=
  String.mk (groupRev (Nat.repr n).data.reverse).reverse

/-- Round a nonnegative rational to the nearest integer, ties to even,
as Python's fixed-point float formatting does (exact rational rounding
stands in for the double-precision value). -/
def roundHalfEven (q : Rat) : Int :=
  let f := q.floor
  let frac := q - (f : Rat)
  if frac < 1 / 2 then f
  else if frac > 1 / 2 then f + 1
  else if f % 2 = 0 then f else f + 1

/-- Python's `{aspect_ratio:.2f}` for the nonnegative aspect ratio. -/
def twoDecFmt (q : Rat) : String :=
  let n := (roundHalfEven (q * 100)).toNat
  Nat.repr (n / 100) ++ "." ++ (if n % 100 < 10 then "0" else "") ++ Nat.repr (n % 100)

/-- Recommendation section body (app.py 328-332). -/
def recommendation_lines (recs : List String) : String :=
  if recs = [] then "- Standard image format\n"
  else String.join (recs.map (fun r => "- ✅ " ++ r ++ "\n"))

/-- The full `basic_analysis` report text (app.py 310-348), rebuilt from
`ImageDescriptor` with the helper functions above standing for the
source's inline expressions. -/
def basic_analysis (d : ImageDescriptor) : String :=
  let w := d.width
  let h := d.height
  let ar := aspect_ratio w h
  let pixels := w * h
  "## 📊 Detailed Image Analysis\n\n### 📐 **Technical Specifications**\n- **Dimensions**: "
    ++ Nat.repr w ++ " × " ++ Nat.repr h ++ " pixels (" ++ commaFmt pixels
    ++ " total pixels)\n- **Aspect Ratio**: " ++ twoDecFmt ar
    ++ ":1\n- **Orientation**: " ++ orientation w h
    ++ "\n- **Size Category**: " ++ size_category pixels
    ++ "\n- **File Format**: " ++ format_or_unknown d.format
    ++ "\n- **Color Mode**: " ++ color_info d.mode
    ++ "\n\n### 🎨 **Image Characteristics**\n- **File Type**: " ++ likely_type d.file_name
    ++ "\n- **Compression**: " ++ compression_kind d.format
    ++ " (typical for " ++ format_str d.format
    ++ ")\n- **Bit Depth**: " ++ bit_depth_str d.bits
    ++ "\n\n### 💡 **Features & Recommendations**\n"
    ++ recommendation_lines (recommendation_list d.mode ar)
    ++ "\n### 🔍 **Usage Suggestions**\n- Perfect for: " ++ usage_suggestion d.format
    ++ "\n- Best viewed at: " ++ Nat.repr w ++ "×" ++ Nat.repr h
    ++ " pixels or smaller\n- Aspect ratio: " ++ aspect_suggestion ar
    ++ "\n\n### ⚠️ **AI Enhancement Note**\nTo get AI-powered content analysis (what\x27s actually *in* the image), your Google API key needs vision capabilities. You can:\n1. Check your API key at [Google AI Studio](https://makersuite.google.com/app/apikey)\n2. Ensure vision/image analysis is enabled\n3. Try a different API key if available\n\n*This analysis provides technical information about your image file. For content-based analysis, please ensure proper API access.*"

/-! ### The remote-model candidate loop (`analyze_image`, app.py 138-244)

Each call of `model.generate_content` either returns text or raises;
we model the outside world as an environment mapping a candidate index
and an attempt kind (structured call with the PIL image, or the
byte-encoding fallback) to an outcome.  The loop itself is translated
from the `for model_name in model_names_to_try` body: the run records
the attempts actually made, an optional success text, and the last
`api_error` message. -/

/-- Outcome of one `generate_content` call: returned text or the raised
exception's message. -/
inductive CallResult where
  | ok : String → CallResult
  | err : String → CallResult
deriving DecidableEq, Repr

/-- Which of the two encodings a call used: the structured attempt with
the PIL image, or the byte-encoding fallback. -/
inductive Attempt where
  | first
  | second
deriving DecidableEq, Repr

/-- Result of one run of the candidate loop: the `(candidate index,
attempt)` pairs tried in order, the returned text if any, and the final
`api_error`. -/
structure LoopResult where
  attempts : List (Nat × Attempt)
  success : Option String
  apiError : Option String
deriving DecidableEq, Repr

/-- `"quota" in error_msg or "limit" in error_msg` (app.py 173 and 207). -/
def hasQuotaLimit (s : String) : Bool := strHasSub s "quota" || strHasSub s "limit"

/-- `"404" in error_msg or "not found" in error_msg` (app.py 176 and 210). -/
def has404 (s : String) : Bool := strHasSub s "404" || strHasSub s "not found"

/-- `"permission" in error_msg or "forbidden" in error_msg` (app.py 179 and 236). -/
def hasPermission (s : String) : Bool :=
  strHasSub s "permission" || strHasSub s "forbidden"

/-- The fixed prefix of the quota message of app.py 174 and 208 (both
occurrences are identical); the raw error text is appended. -/
def quotaMessagePre : String :=
  "Google AI API quota exceeded. The free tier limit has been reached. Please:\n1. Wait for quota to reset (usually after some time)\n2. Check your billing at https://ai.dev/usage\n3. Consider upgrading to a paid plan\n\nError: "

/-- The full quota `api_error` message. -/
def quotaMessage (e : String) : String := quotaMessagePre ++ e

/-- app.py 177. -/
def notAvailableFirstMsg (model_name : String) : String :=
  "Model " ++ model_name ++ " not available. Trying next model..."

/-- app.py 180. -/
def permissionMessage : String :=
  "API key permission denied. Check if your API key has vision capabilities enabled at Google AI Studio."

/-- app.py 183 and 213 (same format string). -/
def otherMessage (model_name e : String) : String :=
  "Error with model " ++ model_name ++ ": " ++ e

/-- app.py 211. -/
def notAvailableSecondMsg (model_name : String) : String :=
  "Model " ++ model_name ++ " not available (404 error)."

/-- The candidate loop of app.py 150-214.  `env i a` is the outcome of
attempt `a` on the candidate with index `i`; `i` is the index of the
head of `names` within the original list; `ae` is the `api_error`
accumulator.  The Python `elif` chain with embedded `break`s is
rendered as: quota/limit on the first attempt breaks at once; an error
that is neither 404/not-found nor quota/limit but permission/forbidden
breaks at once; every other first-attempt error records its message and
falls through to the byte-encoding attempt, whose handler breaks only
on quota/limit and otherwise `continue`s to the next candidate. -/
def runModelLoop (env : Nat → Attempt → CallResult) :
    List String → Nat → Option String → LoopResult
  | [], _, ae => { attempts := [], success := none, apiError := ae }
  | name :: rest, i, ae =>
    match env i Attempt.first with
    | CallResult.ok t =>
      { attempts := [(i, Attempt.first)], success := some t, apiError := ae }
    | CallResult.err e1 =>
      let el := strLower e1
      if hasQuotaLimit el then
        { attempts := [(i, Attempt.first)], success := none,
          apiError := some (quotaMessage e1) }
      else if has404 el = false ∧ hasPermission el then
        { attempts := [(i, Attempt.first)], success := none,
          apiError := some permissionMessage }
      else
        let ae1 := if has404 el then some (notAvailableFirstMsg name)
                   else some (otherMessage name e1)
        match env i Attempt.second with
        | CallResult.ok t =>
          { attempts := [(i, Attempt.first), (i, Attempt.second)],
            success := some t, apiError := ae1 }
        | CallResult.err e2 =>
          let el2 := strLower e2
          if hasQuotaLimit el2 then
            { attempts := [(i, Attempt.first), (i, Attempt.second)],
              success := none, apiError := some (quotaMessage e2) }
          else
            let ae2 := if has404 el2 then some (notAvailableSecondMsg name)
                       else some (otherMessage name e2)
            let r := runModelLoop env rest (i + 1) ae2
            { attempts := (i, Attempt.first) :: (i, Attempt.second) :: r.attempts,
              success := r.success, apiError := r.apiError }

/-- The candidate list of app.py 139-146. -/
def model_names_to_try : List String :=
  ["models/gemini-2.5-flash", "models/gemini-2.5-pro", "models/gemini-2.0-flash-exp",
   "models/gemini-2.0-flash", "models/gemini-flash-latest", "models/gemini-pro-latest"]

/-- One full run of the remote-call loop of `analyze_image`, starting
with `api_error = None` (app.py 148). -/
def analyzeRemote (env : Nat → Attempt → CallResult) : LoopResult :=
  runModelLoop env model_names_to_try 0 none

/-- Post-loop categorization of the final `api_error` (app.py 218, 229
and 236): quota guidance when the message contains quota/limit,
permission guidance when it contains permission/forbidden, the generic
fallback warning otherwise; `None` is falsy and lands in the generic
branch. -/
inductive OutcomeCategory where
  | quotaExceeded
  | permissionDenied
  | otherFailure
deriving DecidableEq, Repr

/-- Categorize the final `api_error` exactly as the post-loop branches do. -/
def classifyApiError : Option String → OutcomeCategory
  | none => OutcomeCategory.otherFailure
  | some ae =>
    if hasQuotaLimit (strLower ae) then OutcomeCategory.quotaExceeded
    else if hasPermission (strLower ae) then OutcomeCategory.permissionDenied
    else OutcomeCategory.otherFailure

/-! ### Branch equations for the candidate loop -/

theorem runModelLoop_nil (env : Nat → Attempt → CallResult) (i : Nat) (ae : Option String) :
    runModelLoop env [] i ae = { attempts := [], success := none, apiError := ae } := rfl

/-- First attempt succeeds: the loop stops with that text. -/
theorem runModelLoop_first_ok {env : Nat → Attempt → CallResult} {i : Nat} {t : String}
    (henv : env i Attempt.first = CallResult.ok t)
    (name : String) (rest : List String) (ae : Option String) :
    runModelLoop env (name :: rest) i ae =
      { attempts := [(i, Attempt.first)], success := some t, apiError := ae } := by
  unfold runModelLoop
  rw [henv]

/-- First attempt fails with a quota/limit message: immediate break. -/
theorem runModelLoop_first_quota {env : Nat → Attempt → CallResult} {i : Nat} {e1 : String}
    (henv : env i Attempt.first = CallResult.err e1)
    (hq : hasQuotaLimit (strLower e1) = true)
    (name : String) (rest : List String) (ae : Option String) :
    runModelLoop env (name :: rest) i ae =
      { attempts := [(i, Attempt.first)], success := none,
        apiError := some (quotaMessage e1) } := by
  unfold runModelLoop
  rw [henv]
  simp [hq]

/-- First attempt fails with a permission message (and no 404/not-found
and no quota/limit): immediate break. -/
theorem runModelLoop_first_permission {env : Nat → Attempt → CallResult} {i : Nat}
    {e1 : String}
    (henv : env i Attempt.first = CallResult.err e1)
    (hq : hasQuotaLimit (strLower e1) = false)
    (h4 : has404 (strLower e1) = false)
    (hp : hasPermission (strLower e1) = true)
    (name : String) (rest : List String) (ae : Option String) :
    runModelLoop env (name :: rest) i ae =
      { attempts := [(i, Attempt.first)], success := none,
        apiError := some permissionMessage } := by
  unfold runModelLoop
  rw [henv]
  simp [hq, h4, hp]

/-- Non-terminal first failure, second attempt succeeds. -/
theorem runModelLoop_second_ok {env : Nat → Attempt → CallResult} {i : Nat}
    {e1 t : String}
    (henv : env i Attempt.first = CallResult.err e1)
    (hq : hasQuotaLimit (strLower e1) = false)
    (hr : has404 (strLower e1) = true ∨ hasPermission (strLower e1) = false)
    (henv2 : env i Attempt.second = CallResult.ok t)
    (name : String) (rest : List String) (ae : Option String) :
    runModelLoop env (name :: rest) i ae =
      { attempts := [(i, Attempt.first), (i, Attempt.second)], success := some t,
        apiError := if has404 (strLower e1) then some (notAvailableFirstMsg name)
                    else some (otherMessage name e1) } := by
  unfold runModelLoop
  rw [henv]
  rcases hr with hr | hr
  · simp [hq, hr, henv2]
  · simp [hq, hr, henv2]

/-- Non-terminal first failure, second attempt fails with quota/limit:
immediate break. -/
theorem runModelLoop_second_quota {env : Nat → Attempt → CallResult} {i : Nat}
    {e1 e2 : String}
    (henv : env i Attempt.first = CallResult.err e1)
    (hq : hasQuotaLimit (strLower e1) = false)
    (hr : has404 (strLower e1) = true ∨ hasPermission (strLower e1) = false)
    (henv2 : env i Attempt.second = CallResult.err e2)
    (hq2 : hasQuotaLimit (strLower e2) = true)
    (name : String) (rest : List String) (ae : Option String) :
    runModelLoop env (name :: rest) i ae =
      { attempts := [(i, Attempt.first), (i, Attempt.second)], success := none,
        apiError := some (quotaMessage e2) } := by
  unfold runModelLoop
  rw [henv]
  rcases hr with hr | hr
  · simp [hq, hr, henv2, hq2]
  · simp [hq, hr, henv2, hq2]

/-- Non-terminal first failure, second failure that is not quota/limit:
record the message and continue with the next candidate. -/
theorem runModelLoop_second_continue {env : Nat → Attempt → CallResult} {i : Nat}
    {e1 e2 : String}
    (henv : env i Attempt.first = CallResult.err e1)
    (hq : hasQuotaLimit (strLower e1) = false)
    (hr : has404 (strLower e1) = true ∨ hasPermission (strLower e1) = false)
    (henv2 : env i Attempt.second = CallResult.err e2)
    (hq2 : hasQuotaLimit (strLower e2) = false)
    (name : String) (rest : List String) (ae : Option String) :
    runModelLoop env (name :: rest) i ae =
      { attempts := (i, Attempt.first) :: (i, Attempt.second) ::
          (runModelLoop env rest (i + 1)
            (if has404 (strLower e2) then some (notAvailableSecondMsg name)
             else some (otherMessage name e2))).attempts,
        success := (runModelLoop env rest (i + 1)
          (if has404 (strLower e2) then some (notAvailableSecondMsg name)
           else some (otherMessage name e2))).success,
        apiError := (runModelLoop env rest (i + 1)
          (if has404 (strLower e2) then some (notAvailableSecondMsg name)
           else some (otherMessage name e2))).apiError } := by
  conv_lhs => rw [runModelLoop.eq_def]
  dsimp only
  rw [henv]
  rcases hr with hr | hr
  · simp [hq, hr, henv2, hq2]
  · simp [hq, hr, henv2, hq2]

/-- Every candidate index recorded in a run starting at index `i` is at
least `i`. -/
theorem runModelLoop_mem_le (env : Nat → Attempt → CallResult) :
    ∀ (names : List String) (i : Nat) (ae : Option String) (j : Nat) (b : Attempt),
      (j, b) ∈ (runModelLoop env names i ae).attempts → i ≤ j := by
  intro names
  induction names with
  | nil =>
    intro i ae j b hmem
    rw [runModelLoop_nil] at hmem
    simp at hmem
  | cons name rest ih =>
    intro i ae j b hmem
    cases henv : env i Attempt.first with
    | ok t =>
      rw [runModelLoop_first_ok henv name rest ae] at hmem
      simp at hmem
      omega
    | err e1 =>
      cases hq : hasQuotaLimit (strLower e1) with
      | true =>
        rw [runModelLoop_first_quota henv hq name rest ae] at hmem
        simp at hmem
        omega
      | false =>
        by_cases hperm : has404 (strLower e1) = false ∧ hasPermission (strLower e1) = true
        · rw [runModelLoop_first_permission henv hq hperm.1 hperm.2 name rest ae] at hmem
          simp at hmem
          omega
        · have hr : has404 (strLower e1) = true ∨ hasPermission (strLower e1) = false := by
            rcases not_and_or.mp hperm with h | h
            · left
              simpa using h
            · right
              simpa using h
          cases henv2 : env i Attempt.second with
          | ok t =>
            rw [runModelLoop_second_ok henv hq hr henv2 name rest ae] at hmem
            simp at hmem
            rcases hmem with ⟨h1, -⟩ | ⟨h1, -⟩ <;> omega
          | err e2 =>
            cases hq2 : hasQuotaLimit (strLower e2) with
            | true =>
              rw [runModelLoop_second_quota henv hq hr henv2 hq2 name rest ae] at hmem
              simp at hmem
              rcases hmem with ⟨h1, -⟩ | ⟨h1, -⟩ <;> omega
            | false =>
              rw [runModelLoop_second_continue henv hq hr henv2 hq2 name rest ae] at hmem
              simp only [List.mem_cons] at hmem
              rcases hmem with h1 | h1 | h1
              · rcases Prod.mk.injEq .. ▸ h1 with ⟨h2, -⟩
                omega
              · rcases Prod.mk.injEq .. ▸ h1 with ⟨h2, -⟩
                omega
              · have := ih (i + 1) _ j b h1
                omega

/-- If a run returns text, some attempted call produced exactly that
text, it is the last attempt of the run, and no attempt was made on any
candidate beyond its index. -/
theorem runModelLoop_success_spec (env : Nat → Attempt → CallResult) :
    ∀ (names : List String) (i : Nat) (ae : Option String) (t : String),
      (runModelLoop env names i ae).success = some t →
      ∃ k a, env k a = CallResult.ok t ∧
        (runModelLoop env names i ae).attempts.getLast? = some (k, a) ∧
        ∀ j b, (j, b) ∈ (runModelLoop env names i ae).attempts → j ≤ k := by
  intro names
  induction names with
  | nil =>
    intro i ae t hs
    rw [runModelLoop_nil] at hs
    simp at hs
  | cons name rest ih =>
    intro i ae t hs
    cases henv : env i Attempt.first with
    | ok t' =>
      rw [runModelLoop_first_ok henv name rest ae] at hs ⊢
      simp only [Option.some.injEq] at hs
      subst hs
      refine ⟨i, Attempt.first, henv, by simp, ?_⟩
      intro j b hmem
      simp at hmem
      omega
    | err e1 =>
      cases hq : hasQuotaLimit (strLower e1) with
      | true =>
        rw [runModelLoop_first_quota henv hq name rest ae] at hs
        simp at hs
      | false =>
        by_cases hperm : has404 (strLower e1) = false ∧ hasPermission (strLower e1) = true
        · rw [runModelLoop_first_permission henv hq hperm.1 hperm.2 name rest ae] at hs
          simp at hs
        · have hr : has404 (strLower e1) = true ∨ hasPermission (strLower e1) = false := by
            rcases not_and_or.mp hperm with h | h
            · left
              simpa using h
            · right
              simpa using h
          cases henv2 : env i Attempt.second with
          | ok t' =>
            rw [runModelLoop_second_ok henv hq hr henv2 name rest ae] at hs ⊢
            simp only [Option.some.injEq] at hs
            subst hs
            refine ⟨i, Attempt.second, henv2, by simp, ?_⟩
            intro j b hmem
            simp at hmem
            rcases hmem with ⟨h1, -⟩ | ⟨h1, -⟩ <;> omega
          | err e2 =>
            cases hq2 : hasQuotaLimit (strLower e2) with
            | true =>
              rw [runModelLoop_second_quota henv hq hr henv2 hq2 name rest ae] at hs
              simp at hs
            | false =>
              rw [runModelLoop_second_continue henv hq hr henv2 hq2 name rest ae] at hs ⊢
              simp only at hs
              obtain ⟨k, a, henvk, hlast, hbound⟩ := ih (i + 1) _ t hs
              refine ⟨k, a, henvk, ?_, ?_⟩
              · exact List.mem_getLast?_cons (List.mem_getLast?_cons hlast)
              · have hk : i + 1 ≤ k := by
                  have hmem : (k, a) ∈ (runModelLoop env rest (i + 1)
                      (if has404 (strLower e2) = true then some (notAvailableSecondMsg name)
                       else some (otherMessage name e2))).attempts := by
                    rcases List.mem_getLast?_eq_getLast hlast with ⟨hne, heq⟩
                    exact heq ▸ List.getLast_mem hne
                  exact runModelLoop_mem_le env rest (i + 1) _ k a hmem
                intro j b hmem
                simp only [List.mem_cons] at hmem
                rcases hmem with h1 | h1 | h1
                · rcases Prod.mk.injEq .. ▸ h1 with ⟨h2, -⟩
                  omega
                · rcases Prod.mk.injEq .. ▸ h1 with ⟨h2, -⟩
                  omega
                · exact hbound j b h1

/-! ### Substring facts used to categorize the quota message -/

theorem hasSub_nil_pat : ∀ l : List Char, hasSub [] l = true
  | [] => rfl
  | _ :: _ => by simp [hasSub, leadsWith]

theorem leadsWith_append (pat : List Char) :
    ∀ l m : List Char, leadsWith pat l = true → leadsWith pat (l ++ m) = true := by
  induction pat with
  | nil =>
    intro l m _
    rfl
  | cons a as ih =>
    intro l m h
    cases l with
    | nil => simp [leadsWith] at h
    | cons b bs =>
      simp only [leadsWith, Bool.and_eq_true] at h
      simp only [List.cons_append, leadsWith, Bool.and_eq_true]
      exact ⟨h.1, ih bs m h.2⟩

theorem hasSub_append_left (pat : List Char) :
    ∀ l m : List Char, hasSub pat l = true → hasSub pat (l ++ m) = true := by
  intro l
  induction l with
  | nil =>
    intro m h
    simp only [hasSub, List.isEmpty_iff] at h
    subst h
    exact hasSub_nil_pat m
  | cons b bs ih =>
    intro m h
    simp only [hasSub, Bool.or_eq_true] at h
    simp only [List.cons_append, hasSub, Bool.or_eq_true]
    rcases h with h | h
    · exact Or.inl (by simpa using leadsWith_append pat (b :: bs) m h)
    · exact Or.inr (ih m h)

theorem strHasSub_append_left (s1 s2 pat : String) (h : strHasSub s1 pat = true) :
    strHasSub (s1 ++ s2) pat = true := by
  unfold strHasSub at h ⊢
  rw [show (s1 ++ s2).data = s1.data ++ s2.data from rfl]
  exact hasSub_append_left _ _ _ h

theorem strLower_append (s1 s2 : String) :
    strLower (s1 ++ s2) = strLower s1 ++ strLower s2 := by
  unfold strLower
  rw [show (s1 ++ s2).data = s1.data ++ s2.data from rfl, List.map_append]
  rfl

/-- The quota `api_error` message always matches the quota/limit check,
whatever raw error text is appended to its fixed prefix. -/
theorem hasQuotaLimit_quotaMessage (e : String) :
    hasQuotaLimit (strLower (quotaMessage e)) = true := by
  unfold quotaMessage hasQuotaLimit
  rw [strLower_append, Bool.or_eq_true]
  exact Or.inl (strHasSub_append_left _ _ _ (by decide))

/-! ### Concrete environments used as witnesses and counterexamples -/

/-- Two candidates failing with 404 on both encodings, then a success on
the third candidate's structured call (the spec's `[fail-404, fail-404,
success]` scenario). -/
def envTwo404ThenOk : Nat → Attempt → CallResult := fun i a =>
  if i < 2 then CallResult.err "404 model not found"
  else if i = 2 ∧ a = Attempt.first then CallResult.ok "the analysis text"
  else CallResult.err "404 model not found"

/-- First candidate fails with a quota message; every later candidate
would succeed (the spec's `[fail-quota, success]` scenario). -/
def envQuotaFirst : Nat → Attempt → CallResult := fun i _ =>
  if i = 0 then CallResult.err "429 quota exceeded for project"
  else CallResult.ok "text from second model"

/-- First candidate: generic failure on the structured call, a
permission failure on the byte-encoding call; every later candidate
succeeds. -/
def envPermSecond : Nat → Attempt → CallResult := fun i a =>
  if i = 0 then
    (if a = Attempt.first then CallResult.err "service glitch"
     else CallResult.err "permission denied for image payload")
  else CallResult.ok "text from second model"

/-- First candidate: 404 on the structured call, quota on the
byte-encoding call. -/
def envQuotaSecond : Nat → Attempt → CallResult := fun i a =>
  if i = 0 ∧ a = Attempt.first then CallResult.err "404 model missing"
  else CallResult.err "limit reached for tier"

/-! ### C1 -/

/-- C1: if some candidate's call returns text, the caller returns that
text immediately — the successful call is the last attempt of the run
and no attempt (structured or byte-encoding) is recorded for any
candidate after it. -/
theorem remote_success_returns_immediately (env : Nat → Attempt → CallResult) (t : String)
    (h : (analyzeRemote env).success = some t) :
    ∃ k a, env k a = CallResult.ok t ∧
      (analyzeRemote env).attempts.getLast? = some (k, a) ∧
      ∀ j b, (j, b) ∈ (analyzeRemote env).attempts → j ≤ k :=
  runModelLoop_success_spec env model_names_to_try 0 none t h

/-- Witness for C1 on the spec's `[fail-404, fail-404, success]` run. -/
theorem remote_success_returns_immediately_witness :
    ∃ k a, envTwo404ThenOk k a = CallResult.ok "the analysis text" ∧
      (analyzeRemote envTwo404ThenOk).attempts.getLast? = some (k, a) ∧
      ∀ j b, (j, b) ∈ (analyzeRemote envTwo404ThenOk).attempts → j ≤ k :=
  remote_success_returns_immediately envTwo404ThenOk "the analysis text" (by decide)

/-! ### C2 -/

/-- C2: a quota/limit error on the first candidate's structured call
aborts the loop at once: the run consists of that single attempt (no
byte-encoding retry, no later candidate) and the outcome is categorized
quota-exceeded. -/
theorem quota_on_first_attempt_aborts (env : Nat → Attempt → CallResult) (e : String)
    (henv : env 0 Attempt.first = CallResult.err e)
    (hq : hasQuotaLimit (strLower e) = true) :
    analyzeRemote env =
      { attempts := [(0, Attempt.first)], success := none,
        apiError := some (quotaMessage e) } ∧
    classifyApiError (analyzeRemote env).apiError = OutcomeCategory.quotaExceeded := by
  have h1 : analyzeRemote env =
      { attempts := [(0, Attempt.first)], success := none,
        apiError := some (quotaMessage e) } :=
    runModelLoop_first_quota henv hq _ _ none
  refine ⟨h1, ?_⟩
  rw [h1]
  simp only [classifyApiError, hasQuotaLimit_quotaMessage e, if_true]

/-- Witness for C2 on the spec's `[fail-quota, success]` run. -/
theorem quota_on_first_attempt_aborts_witness :
    analyzeRemote envQuotaFirst =
      { attempts := [(0, Attempt.first)], success := none,
        apiError := some (quotaMessage "429 quota exceeded for project") } ∧
    classifyApiError (analyzeRemote envQuotaFirst).apiError =
      OutcomeCategory.quotaExceeded :=
  quota_on_first_attempt_aborts envQuotaFirst "429 quota exceeded for project"
    (by decide) (by decide)

/-! ### C3 -/

/-- C3 counterexample: a permission-containing failure on the
byte-encoding (second) attempt does NOT abort the loop — the next
candidate is attempted and its text is returned. -/
theorem second_attempt_permission_not_terminal :
    hasPermission (strLower "permission denied for image payload") = true ∧
    envPermSecond 0 Attempt.second =
      CallResult.err "permission denied for image payload" ∧
    (1, Attempt.first) ∈ (analyzeRemote envPermSecond).attempts ∧
    (analyzeRemote envPermSecond).success = some "text from second model" := by
  decide

/-- C3 amended: on the byte-encoding (second) attempt only quota/limit
failures are terminal; every other failure — permission/forbidden and
404/not-found included — records its message and moves on to the next
candidate. -/
theorem second_attempt_error_classification (env : Nat → Attempt → CallResult)
    (name : String) (rest : List String) (i : Nat) (ae : Option String) (e1 e2 : String)
    (henv : env i Attempt.first = CallResult.err e1)
    (hq : hasQuotaLimit (strLower e1) = false)
    (hr : has404 (strLower e1) = true ∨ hasPermission (strLower e1) = false)
    (henv2 : env i Attempt.second = CallResult.err e2) :
    (hasQuotaLimit (strLower e2) = true →
      runModelLoop env (name :: rest) i ae =
        { attempts := [(i, Attempt.first), (i, Attempt.second)], success := none,
          apiError := some (quotaMessage e2) }) ∧
    (hasQuotaLimit (strLower e2) = false →
      runModelLoop env (name :: rest) i ae =
        { attempts := (i, Attempt.first) :: (i, Attempt.second) ::
            (runModelLoop env rest (i + 1)
              (if has404 (strLower e2) then some (notAvailableSecondMsg name)
               else some (otherMessage name e2))).attempts,
          success := (runModelLoop env rest (i + 1)
            (if has404 (strLower e2) then some (notAvailableSecondMsg name)
             else some (otherMessage name e2))).success,
          apiError := (runModelLoop env rest (i + 1)
            (if has404 (strLower e2) then some (notAvailableSecondMsg name)
             else some (otherMessage name e2))).apiError }) :=
  ⟨fun hq2 => runModelLoop_second_quota henv hq hr henv2 hq2 name rest ae,
   fun hq2 => runModelLoop_second_continue henv hq hr henv2 hq2 name rest ae⟩

/-- Witness for the amended C3: quota on the second attempt is terminal. -/
theorem second_attempt_error_classification_witness :
    runModelLoop envQuotaSecond ["m1", "m2"] 0 none =
      { attempts := [(0, Attempt.first), (0, Attempt.second)], success := none,
        apiError := some (quotaMessage "limit reached for tier") } :=
  (second_attempt_error_classification envQuotaSecond "m1" ["m2"] 0 none
      "404 model missing" "limit reached for tier" (by decide) (by decide)
      (Or.inl (by decide)) (by decide)).1 (by decide)

/-! ### C4 -/

/-- C4: a filename that case-insensitively contains one of the sequence
keywords classifies positive with the filename reason, for every width
and height — the aspect-ratio rules are never consulted. -/
theorem filename_keyword_wins (name : String) (width height : Nat)
    (hk : anyKeywordIn seq_keywords (strLower name) = true) :
    detect_sequence_diagram (some name) width height =
      (true, some "Filename suggests sequence diagram") := by
  simp only [detect_sequence_diagram, optLower, hk, if_true]

/-- Witness for C4: a "sequence" filename with aspect ratio exactly 1. -/
theorem filename_keyword_wins_witness :
    detect_sequence_diagram (some "My_Sequence.png") 100 100 =
      (true, some "Filename suggests sequence diagram") :=
  filename_keyword_wins "My_Sequence.png" 100 100 (by decide)

/-! ### C5 -/

/-- C5: with no filename keyword match the classifier is decided by the
aspect ratio (`width / height` as an exact rational, 1 when the height
is 0): wide-format positive iff ratio > 3/2 and height > 200 (both
strict — height = 200 can never produce the wide verdict), else
technical-diagram positive iff ratio > 6/5 and height > 150, else
negative. -/
theorem aspect_ratio_rules (file_name : Option String) (width height : Nat)
    (hk : anyKeywordIn seq_keywords (optLower file_name) = false) :
    (detect_sequence_diagram file_name width height =
        (true, some "Wide format typical of sequence diagrams") ↔
      aspect_ratio width height > 3 / 2 ∧ height > 200) ∧
    (detect_sequence_diagram file_name width height =
        (true, some "Format suggests technical diagram") ↔
      ¬(aspect_ratio width height > 3 / 2 ∧ height > 200) ∧
        aspect_ratio width height > 6 / 5 ∧ height > 150) ∧
    (detect_sequence_diagram file_name width height = (false, none) ↔
      ¬(aspect_ratio width height > 3 / 2 ∧ height > 200) ∧
        ¬(aspect_ratio width height > 6 / 5 ∧ height > 150)) ∧
    (height = 200 → detect_sequence_diagram file_name width height ≠
      (true, some "Wide format typical of sequence diagrams")) := by
  simp only [detect_sequence_diagram, hk, Bool.false_eq_true, if_false]
  split_ifs with h1 h2
  · refine ⟨by simp [h1], by simp [h1], by simp [h1], ?_⟩
    rintro rfl
    omega
  · refine ⟨?_, by simp [h1, h2], by simp [h1, h2], ?_⟩
    · simp only [Prod.mk.injEq, Option.some.injEq, true_and]
      constructor
      · intro hcontra
        exact absurd hcontra (by decide)
      · intro hcontra
        exact absurd hcontra h1
    · intro _ hcontra
      simp only [Prod.mk.injEq, Option.some.injEq, true_and] at hcontra
      exact absurd hcontra (by decide)
  · refine ⟨?_, ?_, by simp [h1, h2], ?_⟩
    · simp only [Prod.mk.injEq]
      constructor
      · intro hcontra
        exact absurd hcontra.1 (by decide)
      · intro hcontra
        exact absurd hcontra h1
    · simp only [Prod.mk.injEq]
      constructor
      · intro hcontra
        exact absurd hcontra.1 (by decide)
      · intro hcontra
        exact absurd hcontra.2 h2
    · intro _ hcontra
      simp only [Prod.mk.injEq] at hcontra
      exact absurd hcontra.1 (by decide)

/-- Witness for C5: height 201 with ratio about 1.51 triggers the wide
verdict; height 200 with a huge ratio does not. -/
theorem aspect_ratio_rules_witness :
    detect_sequence_diagram none 304 201 =
      (true, some "Wide format typical of sequence diagrams") ∧
    detect_sequence_diagram none 1000 200 ≠
      (true, some "Wide format typical of sequence diagrams") :=
  ⟨(aspect_ratio_rules none 304 201 (by decide)).1.mpr
      (by constructor <;> norm_num [aspect_ratio]),
   (aspect_ratio_rules none 1000 200 (by decide)).2.2.2 rfl⟩

/-! ### C6 -/

/-- C6: the prompt override is monotone — a negative classification
becomes positive with the override reason exactly when the lowered
prompt contains one of the prompt keywords, and a positive
classification is returned unchanged whatever the prompt says. -/
theorem prompt_override_monotone (prompt : Option String) (cls : Bool × Option String) :
    (cls.1 = false → prompt_suggests_seq prompt = true →
      apply_prompt_override prompt cls =
        (true, some "User prompt suggests sequence diagram")) ∧
    (cls.1 = true → apply_prompt_override prompt cls = cls) := by
  constructor
  · intro hneg hsug
    simp [apply_prompt_override, hsug, hneg]
  · intro hpos
    simp [apply_prompt_override, hpos]

/-- Witness for C6: an overriding prompt on a negative classification,
and a keyword-free prompt on a positive classification. -/
theorem prompt_override_monotone_witness :
    apply_prompt_override (some "Explain this UML flow") (false, none) =
      (true, some "User prompt suggests sequence diagram") ∧
    apply_prompt_override (some "what is shown here")
        (true, some "Filename suggests sequence diagram") =
      (true, some "Filename suggests sequence diagram") :=
  ⟨(prompt_override_monotone (some "Explain this UML flow") (false, none)).1
      rfl (by decide),
   (prompt_override_monotone (some "what is shown here")
      (true, some "Filename suggests sequence diagram")).2 rfl⟩

/-! ### C8 -/

/-- C8 counterexample: on an input matching no rule the classifier's
reason is `None`, not the empty string the claim asserts. -/
theorem no_match_reason_is_not_empty_string :
    (detect_sequence_diagram none 100 100).1 = false ∧
    (detect_sequence_diagram none 100 100).2 ≠ some "" := by
  have h : detect_sequence_diagram none 100 100 = (false, none) := by
    norm_num [detect_sequence_diagram, optLower, aspect_ratio,
      show anyKeywordIn seq_keywords "" = false from by decide]
  rw [h]
  exact ⟨rfl, by simp⟩

/-- C8 amended: on inputs matching no rule the classifier returns
negative with no reason at all (`None`), the source's
`return False, None`. -/
theorem no_match_reason_is_none (file_name : Option String) (width height : Nat)
    (hk : anyKeywordIn seq_keywords (optLower file_name) = false)
    (h1 : ¬(aspect_ratio width height > 3 / 2 ∧ height > 200))
    (h2 : ¬(aspect_ratio width height > 6 / 5 ∧ height > 150)) :
    detect_sequence_diagram file_name width height = (false, none) := by
  simp only [detect_sequence_diagram, hk, Bool.false_eq_true, if_false, h1, h2]

/-- Witness for the amended C8. -/
theorem no_match_reason_is_none_witness :
    detect_sequence_diagram none 100 100 = (false, none) :=
  no_match_reason_is_none none 100 100 (by decide)
    (by norm_num [aspect_ratio]) (by norm_num [aspect_ratio])

/-! ### C7 -/

/-- C7: the fallback report's size category buckets the pixel count with
strict upper bounds — Small below 307200, Medium from 307200 up to but
excluding 2073600, Large from 2073600 up to but excluding 4194304, Very
Large from 4194304; a 1920×1080 image (exactly 2073600 pixels) is
Large and a 1919×1079 image is Medium. -/
theorem size_category_buckets (width height : Nat) :
    (size_category (width * height) = "Small" ↔ width * height < 307200) ∧
    (size_category (width * height) = "Medium" ↔
      307200 ≤ width * height ∧ width * height < 2073600) ∧
    (size_category (width * height) = "Large" ↔
      2073600 ≤ width * height ∧ width * height < 4194304) ∧
    (size_category (width * height) = "Very Large" ↔ 4194304 ≤ width * height) ∧
    size_category (1920 * 1080) = "Large" ∧
    size_category (1919 * 1079) = "Medium" := by
  refine ⟨?_, ?_, ?_, ?_, by decide, by decide⟩ <;>
    · unfold size_category
      split_ifs with h1 h2 h3 <;> simp_all <;> omega

/-! ### C9 -/

/-- C9: the classifier and the generic fallback reporter are
deterministic pure functions — runs on equal inputs give equal outputs,
byte for byte for the report text. -/
theorem classifier_and_report_deterministic (f f' : Option String)
    (w w' h h' : Nat) (d d' : ImageDescriptor)
    (hcls : f = f' ∧ w = w' ∧ h = h') (hrep : d = d') :
    detect_sequence_diagram f w h = detect_sequence_diagram f' w' h' ∧
    basic_analysis d = basic_analysis d' := by
  obtain ⟨rfl, rfl, rfl⟩ := hcls
  subst hrep
  exact ⟨rfl, rfl⟩

/-- A concrete 1920×1080 RGB PNG descriptor. -/
def sampleDescriptor : ImageDescriptor :=
  { width := 1920, height := 1080, mode := "RGB", format := some "PNG",
    file_name := some "photo.png", bits := some 8 }

/-- Witness for C9 at the sample descriptor. -/
theorem classifier_and_report_deterministic_witness :
    detect_sequence_diagram (some "photo.png") 1920 1080 =
      detect_sequence_diagram (some "photo.png") 1920 1080 ∧
    basic_analysis sampleDescriptor = basic_analysis sampleDescriptor :=
  classifier_and_report_deterministic (some "photo.png") (some "photo.png")
    1920 1920 1080 1080 sampleDescriptor sampleDescriptor ⟨rfl, rfl, rfl⟩ rfl

/-! ### C10 -/

/-- C10: the file-type classification compares the entire lowered
filename against the extension lists, so any filename that is not
literally one of the bare extension strings reports "Image File". -/
theorem file_type_compares_whole_name (name : String)
    (h : strLower name ∉ all_ext_strings) :
    likely_type (some name) = "Image File" := by
  simp only [all_ext_strings, List.mem_cons, List.not_mem_nil, or_false,
    not_or] at h
  obtain ⟨h1, h2, h3, h4, h5, h6, h7, h8, h9, h10⟩ := h
  simp [likely_type, optLower, h1, h2, h3, h4, h5, h6, h7, h8, h9, h10]

/-- Witness for C10: the ordinary name "photo.jpg" is reported as a
plain "Image File". -/
theorem file_type_compares_whole_name_witness :
    likely_type (some "photo.jpg") = "Image File" :=
  file_type_compares_whole_name "photo.jpg" (by decide)

end ImageAnalysis
